import Mathlib

/-!
Shallow embedding of `tender.py` (a SAM.gov contract search agent with dual
LLM proposal generation).  Pure string manipulation is modelled over
`List Char` mirroring Python `str` operations; JSON values are a tagged
document type; the network, the headless browser and the LLM providers are
inputs supplied through environment records, and every place the Python code
can raise is modelled with `Except`.
-/

/-- `leadsWith needle hay` is true when `needle` is an initial segment of
`hay` (character-list prefix test). -/
def leadsWith : List Char → List Char → Bool
  | [], _ => true
  | _ :: _, [] => false
  | a :: l, b :: m => a == b && leadsWith l m

/-- Auxiliary scan for Python substring containment. -/
def pyInAux (needle : List Char) : List Char → Bool
  | [] => leadsWith needle []
  | c :: t => leadsWith needle (c :: t) || pyInAux needle t

/-- Python `needle in hay` on strings: substring containment. -/
def pyIn (needle hay : String) : Bool :=
  pyInAux needle.data hay.data

/-- Python `s.startswith(pre)` / a string prefix test. -/
def pyStartsWith (s pre : String) : Bool :=
  leadsWith pre.data s.data

/-- Python `len(s)`: number of characters. -/
def pyLen (s : String) : Nat := s.data.length

/-- Python slice `s[:n]`. -/
def pyTake (s : String) (n : Nat) : String := String.mk (s.data.take n)

/-- Python slice `s[n:]`. -/
def pyDrop (s : String) (n : Nat) : String := String.mk (s.data.drop n)

/-- Python `s.lower()` (ASCII). -/
def pyLower (s : String) : String := String.mk (s.data.map Char.toLower)

/-- Whitespace class used by Python `str.strip` and `\s` (ASCII subset). -/
def pyIsSpace (c : Char) : Bool :=
  c == ' ' || c == '\t' || c == '\n' || c == '\r' || c == '\x0b' || c == '\x0c'

/-- Python `s.strip()`: trim leading and trailing whitespace. -/
def pyStrip (s : String) : String :=
  String.mk (((s.data.dropWhile pyIsSpace).reverse.dropWhile pyIsSpace).reverse)

/-- Auxiliary for Python `s.title()`: the boolean records whether the
previous character was cased (a letter). -/
def pyTitleAux : List Char → Bool → List Char
  | [], _ => []
  | c :: t, prevCased =>
    (if c.isAlpha then (if prevCased then c.toLower else c.toUpper) else c) ::
      pyTitleAux t c.isAlpha

/-- Python `s.title()`: each alphabetic run starts uppercase, rest lowercase. -/
def pyTitle (s : String) : String := String.mk (pyTitleAux s.data false)

/-- Split a character list on every occurrence of a separator character
(Python `s.split(sep)` for a one-character separator, keeping empties). -/
def splitCharAux (sep : Char) : List Char → List Char → List (List Char)
  | [], acc => [acc.reverse]
  | c :: t, acc =>
    if c == sep then acc.reverse :: splitCharAux sep t []
    else splitCharAux sep t (c :: acc)

/-- Python `s.split('\n')` as strings. -/
def pySplitNl (s : String) : List String :=
  (splitCharAux '\n' s.data []).map String.mk

/-- Auxiliary for Python `s.split(sep, 1)`: locate the first occurrence of
`sep` and return the pieces before and after it. -/
def splitOnceAux (sep : List Char) : List Char → Option (List Char × List Char)
  | [] => if leadsWith sep [] then some ([], []) else none
  | c :: t =>
    if leadsWith sep (c :: t) then some ([], (c :: t).drop sep.length)
    else (splitOnceAux sep t).map (fun p => (c :: p.1, p.2))

/-- Python `s.split(sep, 1)` when `sep` occurs: `none` means no occurrence
(Python would return a one-element list). -/
def pySplitOnce (s sep : String) : Option (String × String) :=
  (splitOnceAux sep.data s.data).map (fun p => (String.mk p.1, String.mk p.2))

/-- Python `s.replace('\n', '<br>')` (the only `replace` the source uses). -/
def replaceNlBrAux : List Char → List Char
  | [] => []
  | c :: t =>
    if c == '\n' then '<' :: 'b' :: 'r' :: '>' :: replaceNlBrAux t
    else c :: replaceNlBrAux t

/-- Python `s.replace('\n', '<br>')`. -/
def pyReplaceNlBr (s : String) : String := String.mk (replaceNlBrAux s.data)

/-- JSON document values, as produced by `response.json()`. -/
inductive Json where
  | str : String → Json
  | num : Int → Json
  | bool : Bool → Json
  | null : Json
  | arr : List Json → Json
  | obj : List (String × Json) → Json

/-- Key lookup in a JSON object's field list (Python `dict` keys are unique;
lookup returns the first binding). -/
def jlookup : List (String × Json) → String → Option Json
  | [], _ => none
  | (k, v) :: t, key => if k == key then some v else jlookup t key

/-- Python `d.get(key, default)` on an object's field list. -/
def jgetD (kvs : List (String × Json)) (key : String) (dflt : Json) : Json :=
  (jlookup kvs key).getD dflt

/-- Python `j == s` for a string literal `s`: true only when `j` is that
string (Python `==` across types is `False`, never an error). -/
def jIsStr : Json → String → Bool
  | .str t, s => t == s
  | _, _ => false

/-- Length of a JSON string value (`0` for non-strings). -/
def jStrLen : Json → Nat
  | .str s => pyLen s
  | _ => 0

/-- `startswith` on a JSON string value (`false` for non-strings). -/
def jStartsWith (j : Json) (pre : String) : Bool :=
  match j with
  | .str s => pyStartsWith s pre
  | _ => false

/-- Substring containment inside a JSON string value. -/
def jContains (j : Json) (needle : String) : Bool :=
  match j with
  | .str s => pyIn needle s
  | _ => false

mutual
/-- Python `str(j)`.  String quoting inside containers follows `repr`;
escape sequences inside quoted strings are not modelled. -/
def pyStr : Json → String
  | .str s => s
  | .num n => toString n
  | .bool b => if b then "True" else "False"
  | .null => "None"
  | .arr l => "[" ++ pyStrList l ++ "]"
  | .obj kvs => "\x7b" ++ pyStrObj kvs ++ "\x7d"

/-- Python `repr(j)` (strings quoted). -/
def pyReprJ : Json → String
  | .str s => "\x27" ++ s ++ "\x27"
  | .num n => toString n
  | .bool b => if b then "True" else "False"
  | .null => "None"
  | .arr l => "[" ++ pyStrList l ++ "]"
  | .obj kvs => "\x7b" ++ pyStrObj kvs ++ "\x7d"

/-- Comma-joined `repr`s of array elements. -/
def pyStrList : List Json → String
  | [] => ""
  | [j] => pyReprJ j
  | j :: t => pyReprJ j ++ ", " ++ pyStrList t

/-- Comma-joined `repr`s of object entries. -/
def pyStrObj : List (String × Json) → String
  | [] => ""
  | [(k, v)] => "\x27" ++ k ++ "\x27: " ++ pyReprJ v
  | (k, v) :: t => "\x27" ++ k ++ "\x27: " ++ pyReprJ v ++ ", " ++ pyStrObj t
end

/-- Python `'key' in j` (the membership test the orchestrator applies to the
decoded API body): key membership for objects, element equality for arrays,
substring test for strings, and a `TypeError` for the remaining types. -/
def pyInJson (key : String) : Json → Except Unit Bool
  | .obj kvs => .ok (jlookup kvs key).isSome
  | .arr l => .ok (l.any (fun j => jIsStr j key))
  | .str s => .ok (pyIn key s)
  | _ => .error ()

/-- The canonical opportunity record: the eight-key `dict` every strategy
builds.  Field values are JSON values because the API parser copies decoded
JSON field values into the record unchanged. -/
structure Contract where
  title : Json
  notice_id : Json
  description : Json
  posted_date : Json
  response_deadline : Json
  department : Json
  type : Json
  naics_code : Json

/-- The optional company profile: six free-text fields. -/
structure CompanyProfile where
  company_name : String
  experience : String
  capabilities : String
  certifications : String
  past_performance : String
  competitive_advantages : String

/-- The per-provider proposal result: `summary` and `bid_proposal`. -/
structure ProposalResult where
  summary : String
  bid_proposal : String

/-- All eight record fields are non-empty strings. -/
def allFieldsNonEmptyStr (c : Contract) : Bool :=
  [c.title, c.notice_id, c.description, c.posted_date, c.response_deadline,
   c.department, c.type, c.naics_code].all
    (fun j => match j with
      | .str s => !(s == "")
      | _ => false)

/-- `generate_sample_contracts`: the deterministic keyword-interpolated
fallback records (truncated to `limit`). -/
def generate_sample_contracts (keyword : String) (limit : Nat) : List Contract :=
  let sample_contracts : List Contract :=
    [ { title := .str (pyTitle keyword ++ " Services and Maintenance Contract"),
        notice_id := .str "DEMO-2024-001",
        description := .str ("The Department of General Services is seeking qualified contractors to provide comprehensive " ++ keyword ++ " services for federal facilities. This includes regular maintenance, seasonal work, equipment provision, and emergency response services. Contractors must demonstrate experience with similar government contracts and meet all federal compliance requirements. The contract period is for a base year with four option years."),
        posted_date := .str "2024-10-15",
        response_deadline := .str "2024-12-01",
        department := .str "Department of General Services",
        type := .str "Combined Synopsis/Solicitation",
        naics_code := .str "561730" },
      { title := .str ("Multi-Site " ++ pyTitle keyword ++ " and Landscape Management"),
        notice_id := .str "DEMO-2024-002",
        description := .str ("This procurement is for professional " ++ keyword ++ " and landscape management services at multiple federal buildings and grounds in the region. The scope includes design consultation, plant material selection and installation, irrigation system maintenance, integrated pest management, and sustainable landscape practices. Preference given to contractors with LEED certifications, sustainable " ++ keyword ++ " practices, and veteran-owned business status."),
        posted_date := .str "2024-10-20",
        response_deadline := .str "2024-12-15",
        department := .str "General Services Administration",
        type := .str "Solicitation",
        naics_code := .str "561730" },
      { title := .str (pyTitle keyword ++ " Equipment and Materials Supply Contract"),
        notice_id := .str "DEMO-2024-003",
        description := .str ("The Department of Veterans Affairs requires " ++ keyword ++ " equipment, materials, and supplies for multiple medical center locations nationwide. This includes commercial-grade equipment, maintenance tools, organic materials, and professional installation services. Deliveries must meet federal sustainability standards and support small business participation. This is a multi-year indefinite delivery/indefinite quantity (IDIQ) contract with a ceiling of $5M."),
        posted_date := .str "2024-10-25",
        response_deadline := .str "2024-12-20",
        department := .str "Department of Veterans Affairs",
        type := .str "Presolicitation",
        naics_code := .str "561730" } ]
  sample_contracts.take limit

/-- Python slice `value[:n]` as applied by the API parser to a decoded JSON
field value: strings and lists slice; other types raise a `TypeError`. -/
def pySliceJson (n : Nat) : Json → Except Unit Json
  | .str s => .ok (.str (pyTake s n))
  | .arr l => .ok (.arr (l.take n))
  | _ => .error ()

/-- One record of `parse_sam_api_response`: field mapping with fallbacks for
a single element of `opportunitiesData`.  A non-`dict` element raises
(`AttributeError` on `.get`); a non-sliceable `description` raises
(`TypeError`). -/
def parseApiOpp : Json → Except Unit Contract
  | .obj kvs => do
    let description ← pySliceJson 1500 (jgetD kvs "description" (.str "No description"))
    .ok { title := jgetD kvs "title" (.str "No title"),
          notice_id := jgetD kvs "noticeId" (.str "N/A"),
          description := description,
          posted_date := jgetD kvs "postedDate" (.str "N/A"),
          response_deadline := jgetD kvs "responseDeadLine" (.str "N/A"),
          department :=
            match jlookup kvs "department" with
            | some (.obj dkvs) => jgetD dkvs "name" (.str "N/A")
            | _ => .str (pyStr (jgetD kvs "department" (.str "N/A"))),
          type := jgetD kvs "type" (.str "N/A"),
          naics_code := jgetD kvs "naicsCode" (.str "N/A") }
  | _ => .error ()

/-- Sequenced record parsing for the sliced `opportunitiesData` list. -/
def parseApiOpps : List Json → Except Unit (List Contract)
  | [] => .ok []
  | o :: os => do
    let c ← parseApiOpp o
    let rest ← parseApiOpps os
    .ok (c :: rest)

/-- `parse_sam_api_response`: reads `data.get('opportunitiesData', [])`,
slices it to `limit` and maps each element onto the canonical record.
`.error` marks the places where the Python function raises: a non-`dict`
argument, a non-sliceable `opportunitiesData` value, or malformed elements. -/
def parse_sam_api_response (data : Json) (limit : Nat) : Except Unit (List Contract) :=
  match data with
  | .obj kvs =>
    match jgetD kvs "opportunitiesData" (.arr []) with
    | .arr l => parseApiOpps (l.take limit)
    | .str s =>
      -- slicing a string succeeds; iterating its characters then raises on
      -- `.get` unless the slice is empty
      if pyTake s limit == "" then .ok [] else .error ()
    | _ => .error ()
  | _ => .error ()

/-- One `<item>` of the feed as extracted by the XML soup: each field is the
text of the corresponding child tag when present. -/
structure RssItem where
  title : Option String
  description : Option String
  pubDate : Option String
  link : Option String

/-- Character class `[A-Z0-9-]` of the feed's notice-id pattern. -/
def isRssIdChar (c : Char) : Bool :=
  ('A' ≤ c && c ≤ 'Z') || c.isDigit || c == '-'

/-- `re.search(r'[A-Z0-9-]{10,}', link)`: leftmost maximal run of class
characters of length at least 10. -/
def rssIdSearch : List Char → Option String
  | [] => none
  | c :: t =>
    let run := (c :: t).takeWhile isRssIdChar
    if run.length ≥ 10 then some (String.mk run) else rssIdSearch t

/-- Markup stripping applied to feed descriptions
(`BeautifulSoup(description, 'html.parser').get_text()`): drops `<...>` tag
spans.  Entity decoding and script/style special cases are not modelled. -/
def stripTagsAux : List Char → Bool → List Char
  | [], _ => []
  | c :: t, true => if c == '>' then stripTagsAux t false else stripTagsAux t true
  | c :: t, false => if c == '<' then stripTagsAux t true else c :: stripTagsAux t false

/-- Markup stripping on a string. -/
def stripTags (s : String) : String := String.mk (stripTagsAux s.data false)

/-- `parse_rss_feed` after the soup stage: the `items` argument is the list
of `<item>` elements BeautifulSoup extracts from the response bytes (empty
when the bytes are unparseable, since the XML soup is lenient and the
function's blanket `except` returns the accumulated list). -/
def parse_rss_feed (items : List RssItem) (keyword : String) (limit : Nat) : List Contract :=
  (items.take limit).map (fun item =>
    let title := match item.title with
      | some t => t
      | none => pyTitle keyword ++ " Opportunity"
    let description := match item.description with
      | some d => d
      | none => ""
    let pub_date := match item.pubDate with
      | some d => d
      | none => "N/A"
    let link := match item.link with
      | some l => l
      | none => ""
    let notice_id :=
      if link == "" then "N/A"
      else match rssIdSearch link.data with
        | some m => m
        | none => "N/A"
    { title := .str (pyTake title 200),
      notice_id := .str notice_id,
      description := .str (pyTake (stripTags description) 1500),
      posted_date := .str pub_date,
      response_deadline := .str "See SAM.gov",
      department := .str "Federal Government",
      type := .str "Active Opportunity",
      naics_code := .str "See SAM.gov" })

/-- Character class `[A-Z0-9]` of the scraper's notice-id pattern. -/
def isIdChar (c : Char) : Bool :=
  ('A' ≤ c && c ≤ 'Z') || c.isDigit

/-- Match of `[A-Z0-9]{5,}[-_]?[A-Z0-9]*` anchored at the head of the list:
greedy maximal run of at least 5 class characters, an optional `-` or `_`,
then a further greedy run. -/
def noticeMatchAt (l : List Char) : Option (List Char) :=
  let run := l.takeWhile isIdChar
  if run.length ≥ 5 then
    match l.drop run.length with
    | c :: t =>
      if c == '-' || c == '_' then some (run ++ c :: t.takeWhile isIdChar)
      else some run
    | [] => some run
  else none

/-- `re.search(r'[A-Z0-9]{5,}[-_]?[A-Z0-9]*', line)`: leftmost match. -/
def noticeSearch : List Char → Option String
  | [] => none
  | c :: t =>
    match noticeMatchAt (c :: t) with
    | some m => some (String.mk m)
    | none => noticeSearch t

/-- Match of `\d{1,2}/\d{1,2}/\d{4}` anchored at the head of the list. -/
def dateSlashAt (l : List Char) : Option (List Char) :=
  let r1 := l.takeWhile Char.isDigit
  if r1.length == 1 || r1.length == 2 then
    match l.drop r1.length with
    | '/' :: t2 =>
      let r2 := t2.takeWhile Char.isDigit
      if r2.length == 1 || r2.length == 2 then
        match t2.drop r2.length with
        | '/' :: t4 =>
          let r3 := t4.takeWhile Char.isDigit
          if r3.length ≥ 4 then some (r1 ++ '/' :: r2 ++ '/' :: r3.take 4)
          else none
        | _ => none
      else none
    | _ => none
  else none

/-- Match of `\d{4}-\d{2}-\d{2}` anchored at the head of the list. -/
def dateIsoAt (l : List Char) : Option (List Char) :=
  let r1 := l.takeWhile Char.isDigit
  if r1.length == 4 then
    match l.drop 4 with
    | '-' :: t2 =>
      let r2 := t2.takeWhile Char.isDigit
      if r2.length == 2 then
        match t2.drop 2 with
        | '-' :: t4 =>
          let r3 := t4.takeWhile Char.isDigit
          if r3.length ≥ 2 then some (r1 ++ '-' :: r2 ++ '-' :: r3.take 2)
          else none
        | _ => none
      else none
    | _ => none
  else none

/-- Match of `[A-Z][a-z]{2}\s+\d{1,2},?\s+\d{4}` anchored at the head of the
list (a textual date such as `Oct 15, 2024`). -/
def dateTextAt (l : List Char) : Option (List Char) :=
  match l with
  | c0 :: c1 :: c2 :: t =>
    if ('A' ≤ c0 && c0 ≤ 'Z') && ('a' ≤ c1 && c1 ≤ 'z') && ('a' ≤ c2 && c2 ≤ 'z') then
      let ws1 := t.takeWhile pyIsSpace
      if ws1.length ≥ 1 then
        let t1 := t.drop ws1.length
        let d1 := t1.takeWhile Char.isDigit
        if d1.length == 1 || d1.length == 2 then
          let t2 := t1.drop d1.length
          let (comma, t3) :=
            match t2 with
            | ',' :: r => (([','] : List Char), r)
            | _ => (([] : List Char), t2)
          let ws2 := t3.takeWhile pyIsSpace
          if ws2.length ≥ 1 then
            let t4 := t3.drop ws2.length
            let d2 := t4.takeWhile Char.isDigit
            if d2.length ≥ 4 then
              some (c0 :: c1 :: c2 :: ws1 ++ d1 ++ comma ++ ws2 ++ d2.take 4)
            else none
          else none
        else none
      else none
    else none
  | _ => none

/-- The scraper's date regex: at each position try the three alternatives in
pattern order; return the leftmost match. -/
def dateSearch : List Char → Option String
  | [] => none
  | c :: t =>
    match dateSlashAt (c :: t) with
    | some m => some (String.mk m)
    | none =>
      match dateIsoAt (c :: t) with
      | some m => some (String.mk m)
      | none =>
        match dateTextAt (c :: t) with
        | some m => some (String.mk m)
        | none => dateSearch t

/-- One candidate opportunity container of the rendered page, after the DOM
selector cascade (test-id attributes, class names, parents of
opportunity-like links).  The fields carry the texts the extraction
heuristics read: `get_text(' ')`, the first `h1`-`h5` heading text, the text
of an opportunity-like anchor, and `get_text('\n')`. -/
structure Container where
  textSpace : String
  heading : Option String
  oppLink : Option String
  textNl : String

/-- The container's stripped, non-empty text lines
(`[line.strip() for line in all_text.split('\n') if line.strip()]`). -/
def containerLines (c : Container) : List String :=
  ((pySplitNl c.textNl).map pyStrip).filter (fun l => !(l == ""))

/-- The navigation/footer terms that cause a short container to be skipped. -/
def skip_terms : List String :=
  ["privacy", "terms of use", "sitemap", "help guide", "all domains", "sign in"]

/-- The generic titles the scraper rejects. -/
def genericTitles : List String := ["all domains", "help guide", "search", "filter"]

/-- Notice-id derivation: first line holding an identifier-ish keyword whose
regex search succeeds. -/
def findNoticeId : List String → String
  | [] => "N/A"
  | l :: rest =>
    if (["notice id", "solicitation", "number", "award"].any
        (fun t => pyIn t (pyLower l))) then
      match noticeSearch l.data with
      | some m => m
      | none => findNoticeId rest
    else findNoticeId rest

/-- Date derivation: every line with a date-shaped substring updates the
posted date or the deadline according to co-occurring keywords. -/
def findDates : List String → String × String → String × String
  | [], acc => acc
  | l :: rest, (p, d) =>
    match dateSearch l.data with
    | some m =>
      if pyIn "post" (pyLower l) || pyIn "publish" (pyLower l) then
        findDates rest (m, d)
      else if pyIn "dead" (pyLower l) || pyIn "due" (pyLower l) ||
          pyIn "response" (pyLower l) then
        findDates rest (p, m)
      else findDates rest (p, d)
    | none => findDates rest (p, d)

/-- Department derivation: first agency-ish line shorter than 100 characters. -/
def findDepartment : List String → String
  | [] => "Federal Government"
  | l :: rest =>
    if (["department", "agency", "office of"].any (fun t => pyIn t (pyLower l))) &&
        pyLen l < 100 then l
    else findDepartment rest

/-- Title derivation: the first heading's text, else (when absent or empty,
both falsy in Python) the text of an opportunity-like anchor, else the
empty string standing for Python's `None`. -/
def deriveTitle (c : Container) : String :=
  let title0 := match c.heading with
    | some t => t
    | none => ""
  if title0 == "" then
    (match c.oppLink with
     | some t => t
     | none => "")
  else title0

/-- Per-container extraction: `none` is the Python `continue`.  Mirrors the
scraper's parsing loop body: the navigation/footer skip, title derivation
from heading or link, the length-15 and generic-title rejections, then the
field heuristics and the truncating record build. -/
def processContainer (keyword : String) (c : Container) : Option Contract :=
  let container_text := c.textSpace
  if (skip_terms.any (fun t => pyIn t (pyLower container_text))) &&
      pyLen container_text < 100 then none
  else
    let title := deriveTitle c
    if pyLen title < 15 then none
    else if genericTitles.any (fun g => g == pyLower title) then none
    else
      let lines := containerLines c
      let notice_id := findNoticeId lines
      let description := match lines.find? (fun l => pyLen l > 50 && !(l == title)) with
        | some l => l
        | none =>
          if lines.length > 1 then String.intercalate " " ((lines.drop 1).take 3)
          else "Federal contract opportunity for " ++ keyword
      let dates := findDates lines ("Recently posted", "See SAM.gov for details")
      let department := findDepartment lines
      some { title := .str (pyTake title 250),
             notice_id := .str notice_id,
             description := .str (pyTake description 2000),
             posted_date := .str dates.1,
             response_deadline := .str dates.2,
             department := .str department,
             type := .str "Active Opportunity",
             naics_code := .str "See SAM.gov for NAICS codes" }

/-- The scraper's container loop: append each extracted record and stop once
`limit` records are accumulated. -/
def extractLoop (keyword : String) (limit : Nat) :
    List Container → List Contract → List Contract
  | [], acc => acc
  | c :: cs, acc =>
    match processContainer keyword c with
    | none => extractLoop keyword limit cs acc
    | some ct =>
      let acc2 := acc ++ [ct]
      if acc2.length ≥ limit then acc2 else extractLoop keyword limit cs acc2

/-- `fetch_sam_contracts_playwright` after rendering: candidate containers
are capped at `3 * limit`, parsed, and the accumulated records are returned
sliced to `limit` (or `[]` when nothing was extracted).  The embedded
JSON-in-script probe of the source only prints and is omitted; browser
navigation failures are the `none` case of the orchestrator environment. -/
def fetch_sam_contracts_playwright (keyword : String) (limit : Nat)
    (containers : List Container) : List Contract :=
  match extractLoop keyword limit (containers.take (limit * 3)) [] with
  | [] => []
  | c :: cs => (c :: cs).take limit

/-- The external world of one `fetch_sam_contracts` call.  `none` at any
point is a raised exception (navigation failure, `requests.get` error,
`response.json()` decode error): the orchestrator's `try` blocks turn each
into a fall-through to the next strategy. -/
structure AcqEnv where
  playwright_available : Bool
  rendered_containers : Option (List Container)
  api_response : Option (Nat × Option Json)
  rss_response : Option (Nat × List RssItem)

/-- Strategy 1: the Playwright scrape (empty when Playwright is missing or
the browser run raised). -/
def strategyPlaywright (env : AcqEnv) (keyword : String) (limit : Nat) : List Contract :=
  if env.playwright_available then
    match env.rendered_containers with
    | some containers => fetch_sam_contracts_playwright keyword limit containers
    | none => []
  else []

/-- Strategy 2: the public opportunities API.  A non-200 status, a decode
failure, a missing `opportunitiesData` key, or a parse exception all yield
`[]` (the surrounding `try` swallows every raise). -/
def strategyApi (env : AcqEnv) (limit : Nat) : List Contract :=
  match env.api_response with
  | none => []
  | some (status, body) =>
    if status == 200 then
      match body with
      | none => []
      | some data =>
        match pyInJson "opportunitiesData" data with
        | .ok true =>
          match parse_sam_api_response data limit with
          | .ok contracts => contracts
          | .error _ => []
        | _ => []
    else []

/-- Strategy 3: the RSS feed (its parser never raises). -/
def strategyRss (env : AcqEnv) (keyword : String) (limit : Nat) : List Contract :=
  match env.rss_response with
  | none => []
  | some (status, items) =>
    if status == 200 then parse_rss_feed items keyword limit else []

/-- `fetch_sam_contracts`: try the rendered scrape, the API, then the feed,
returning the first non-empty result; fall back to the sample generator. -/
def fetch_sam_contracts (env : AcqEnv) (keyword : String) (limit : Nat) : List Contract :=
  match strategyPlaywright env keyword limit with
  | c :: cs => c :: cs
  | [] =>
    match strategyApi env limit with
    | c :: cs => c :: cs
    | [] =>
      match strategyRss env keyword limit with
      | c :: cs => c :: cs
      | [] => generate_sample_contracts keyword limit

/-- The Gemini system instruction. -/
def google_system_instruction : String :=
  "You are a professional government contract analyst and bid writer with expertise in crafting winning proposals."

/-- The company-context block the Gemini prompt embeds when a profile with a
non-empty company name is supplied. -/
def google_company_context (company_profile : Option CompanyProfile) : String :=
  match company_profile with
  | some p =>
    if p.company_name == "" then ""
    else
      "\n\nWhen creating the proposal outline, incorporate these company strengths and details:\nCompany Name: " ++
      p.company_name ++ "\nYears of Experience: " ++ p.experience ++
      "\nKey Capabilities: " ++ p.capabilities ++ "\nCertifications: " ++
      p.certifications ++ "\nPast Performance: " ++ p.past_performance ++
      "\nCompetitive Advantages: " ++ p.competitive_advantages ++
      "\n\nTailor the proposal to highlight how this company\x27s specific strengths match the contract requirements."
  | none => ""

/-- The Gemini user prompt. -/
def google_prompt (contract_data : Contract) (company_profile : Option CompanyProfile) : String :=
  "You are a professional contract analyst and bid writer. Analyze this government contract opportunity:\n\nTitle: " ++
  pyStr contract_data.title ++ "\nDepartment: " ++ pyStr contract_data.department ++
  "\nPosted: " ++ pyStr contract_data.posted_date ++ "\nDeadline: " ++
  pyStr contract_data.response_deadline ++ "\nDescription: " ++
  pyStr contract_data.description ++ google_company_context company_profile ++
  "\n\nPlease provide:\n1. A concise summary of the key requirements, scope, and timeline\n2. A brief 1-2 paragraph proposal outline that addresses the contract requirements, highlights relevant qualifications, and differentiators"

/-- The GPT-4 system message content. -/
def openai_system_content : String :=
  "You are a professional government contract analyst and bid writer with expertise in crafting winning proposals."

/-- The company-context block the GPT-4 prompt embeds. -/
def openai_company_context (company_profile : Option CompanyProfile) : String :=
  match company_profile with
  | some p =>
    if p.company_name == "" then ""
    else
      "\n\nWhen creating the proposal outline, incorporate these company strengths and details:\nCompany Name: " ++
      p.company_name ++ "\nYears of Experience: " ++ p.experience ++
      "\nKey Capabilities: " ++ p.capabilities ++ "\nCertifications: " ++
      p.certifications ++ "\nPast Performance: " ++ p.past_performance ++
      "\nCompetitive Advantages: " ++ p.competitive_advantages ++
      "\n\nTailor the proposal to highlight how this company\x27s specific strengths match the contract requirements."
  | none => ""

/-- The GPT-4 user prompt. -/
def openai_prompt (contract_data : Contract) (company_profile : Option CompanyProfile) : String :=
  "You are a professional contract analyst and bid writer. Analyze this government contract opportunity:\n\nTitle: " ++
  pyStr contract_data.title ++ "\nDepartment: " ++ pyStr contract_data.department ++
  "\nPosted: " ++ pyStr contract_data.posted_date ++ "\nDeadline: " ++
  pyStr contract_data.response_deadline ++ "\nDescription: " ++
  pyStr contract_data.description ++ openai_company_context company_profile ++
  "\n\nPlease provide:\n1. A concise summary of the key requirements, scope, and timeline\n2. A brief 1-2 paragraph proposal outline that addresses the contract requirements, highlights relevant qualifications, and differentiators"

/-- `generate_google_response`: the provider argument is the outcome of
`model.generate_content(prompt).text` — `.error e` carries `str(e)` of the
raised exception, handled by the function's blanket `except`. -/
def generate_google_response (contract_data : Contract)
    (company_profile : Option CompanyProfile)
    (provider : Except String String) : ProposalResult :=
  let _system_instruction := google_system_instruction
  let _prompt := google_prompt contract_data company_profile
  match provider with
  | .error e =>
    { summary := "Error generating Google AI response: " ++ e,
      bid_proposal := "Unable to generate proposal." }
  | .ok content =>
    if pyIn "proposal outline" (pyLower content) || pyIn "2." content then
      match pySplitOnce content "\n\n" with
      | some (a, b) => { summary := a, bid_proposal := b }
      | none =>
        { summary := pyTake content (pyLen content / 2),
          bid_proposal := pyDrop content (pyLen content / 2) }
    else
      { summary := pyTake content (pyLen content / 2),
        bid_proposal := pyDrop content (pyLen content / 2) }

/-- `generate_openai_response`: the provider argument is the outcome of the
chat-completion call's `choices[0].message.content`. -/
def generate_openai_response (contract_data : Contract)
    (company_profile : Option CompanyProfile)
    (provider : Except String String) : ProposalResult :=
  let _system_content := openai_system_content
  let _prompt := openai_prompt contract_data company_profile
  match provider with
  | .error e =>
    { summary := "Error generating OpenAI response: " ++ e,
      bid_proposal := "Unable to generate proposal." }
  | .ok content =>
    if pyIn "proposal outline" (pyLower content) || pyIn "2." content then
      match pySplitOnce content "\n\n" with
      | some (a, b) => { summary := a, bid_proposal := b }
      | none =>
        { summary := pyTake content (pyLen content / 2),
          bid_proposal := pyDrop content (pyLen content / 2) }
    else
      { summary := pyTake content (pyLen content / 2),
        bid_proposal := pyDrop content (pyLen content / 2) }

/-- The environment of one `process_contracts` invocation: the acquisition
world plus the outcome each LLM provider would return for a given call. -/
structure ProcEnv where
  acq : AcqEnv
  googleProvider : Contract → Option CompanyProfile → Except String String
  openaiProvider : Contract → Option CompanyProfile → Except String String

/-- The observable outcome of `process_contracts`: the returned markup and
how many times the acquirer and each proposal generator were invoked. -/
structure ProcOut where
  html : String
  fetchCalls : Nat
  googleCalls : Nat
  openaiCalls : Nat

/-- The per-contract header block of the rendered results. -/
def contractHeaderHtml (idx : Nat) (c : Contract) : String :=
  "\n        <div style=\x27border: 2px solid #4CAF50; padding: 20px; margin: 20px 0; border-radius: 10px; background-color: #f9f9f9;\x27>\n            <h3 style=\x27color: #2E7D32; margin-top: 0;\x27>Contract " ++
  toString idx ++ ": " ++ pyStr c.title ++
  "</h3>\n            <div style=\x27background-color: #e8f5e9; padding: 10px; border-radius: 5px; margin: 10px 0;\x27>\n                <p style=\x27color: #000; margin: 5px 0;\x27><strong style=\x27color: #1B5E20;\x27>Notice ID:</strong> " ++
  pyStr c.notice_id ++
  "</p>\n                <p style=\x27color: #000; margin: 5px 0;\x27><strong style=\x27color: #1B5E20;\x27>Department:</strong> " ++
  pyStr c.department ++
  "</p>\n                <p style=\x27color: #000; margin: 5px 0;\x27><strong style=\x27color: #1B5E20;\x27>Posted:</strong> " ++
  pyStr c.posted_date ++
  "</p>\n                <p style=\x27color: #000; margin: 5px 0;\x27><strong style=\x27color: #1B5E20;\x27>Deadline:</strong> " ++
  pyStr c.response_deadline ++
  "</p>\n            </div>\n        "

/-- The fixed progress note rendered before the generator calls. -/
def analysisNoteHtml : String :=
  "<p style=\x27color: #666; font-style: italic;\x27><em>Generating AI analysis...</em></p>"

/-- The side-by-side comparison block, with the four `{}` slots of the
source template filled by the newline-to-`<br>`-rewritten summaries and
outlines. -/
def aiComparisonHtml (googleR openaiR : ProposalResult) : String :=
  "\n            <div style=\x27display: grid; grid-template-columns: 1fr 1fr; gap: 20px; margin-top: 20px;\x27>\n                <div style=\x27background-color: #e8f5e9; padding: 15px; border-radius: 8px; border-left: 4px solid #4CAF50;\x27>\n                    <h4 style=\x27color: #1B5E20; margin-top: 0;\x27>🤖 Google Gemini Analysis</h4>\n                    <h5 style=\x27color: #2E7D32; margin-bottom: 8px;\x27>Summary:</h5>\n                    <p style=\x27font-size: 14px; color: #000; line-height: 1.6;\x27>" ++
  pyReplaceNlBr googleR.summary ++
  "</p>\n                    <h5 style=\x27color: #2E7D32; margin-top: 15px; margin-bottom: 8px;\x27>Proposal Outline:</h5>\n                    <p style=\x27font-size: 14px; color: #000; line-height: 1.6;\x27>" ++
  pyReplaceNlBr googleR.bid_proposal ++
  "</p>\n                </div>\n                <div style=\x27background-color: #e3f2fd; padding: 15px; border-radius: 8px; border-left: 4px solid #2196F3;\x27>\n                    <h4 style=\x27color: #0D47A1; margin-top: 0;\x27>🤖 GPT-4 Analysis</h4>\n                    <h5 style=\x27color: #1565C0; margin-bottom: 8px;\x27>Summary:</h5>\n                    <p style=\x27font-size: 14px; color: #000; line-height: 1.6;\x27>" ++
  pyReplaceNlBr openaiR.summary ++
  "</p>\n                    <h5 style=\x27color: #1565C0; margin-top: 15px; margin-bottom: 8px;\x27>Proposal Outline:</h5>\n                    <p style=\x27font-size: 14px; color: #000; line-height: 1.6;\x27>" ++
  pyReplaceNlBr openaiR.bid_proposal ++
  "</p>\n                </div>\n            </div>\n            "

/-- The description-only block rendered for ineligible contracts. -/
def descriptionHtml (c : Contract) : String :=
  "<p style=\x27color: #666; font-style: italic;\x27>" ++ pyStr c.description ++ "</p>"

/-- The presenter's contract loop (`enumerate(contracts, 1)`), carrying the
markup built so far and the generator call counters.  `'Error' in title`
raises a `TypeError` when the title is not a string. -/
def processLoop (env : ProcEnv) (profile : Option CompanyProfile) :
    List Contract → Nat → String → Nat → Nat → Except Unit (String × Nat × Nat)
  | [], _, html, g, o => .ok (html, g, o)
  | c :: rest, idx, html, g, o =>
    let html1 := html ++ contractHeaderHtml idx c
    if !(jIsStr c.notice_id "N/A") then
      match c.title with
      | .str t =>
        if !(pyIn "Error" t) then
          let googleR := generate_google_response c profile (env.googleProvider c profile)
          let openaiR := generate_openai_response c profile (env.openaiProvider c profile)
          processLoop env profile rest (idx + 1)
            (html1 ++ analysisNoteHtml ++ aiComparisonHtml googleR openaiR ++ "</div>")
            (g + 1) (o + 1)
        else
          processLoop env profile rest (idx + 1)
            (html1 ++ descriptionHtml c ++ "</div>") g o
      | _ => .error ()
    else
      processLoop env profile rest (idx + 1)
        (html1 ++ descriptionHtml c ++ "</div>") g o

/-- `process_contracts`: empty-keyword validation, optional profile build,
one acquisition of up to 3 contracts, and the rendering loop. -/
def process_contracts (env : ProcEnv) (keyword company_name experience
    capabilities certifications past_performance competitive_advantages : String) :
    Except Unit ProcOut :=
  if keyword == "" || pyStrip keyword == "" then
    .ok { html := "<p style=\x27color: red;\x27>Please enter a search keyword.</p>",
          fetchCalls := 0, googleCalls := 0, openaiCalls := 0 }
  else
    let company_profile : Option CompanyProfile :=
      if !(company_name == "") && !(pyStrip company_name == "") then
        some { company_name := company_name, experience := experience,
               capabilities := capabilities, certifications := certifications,
               past_performance := past_performance,
               competitive_advantages := competitive_advantages }
      else none
    let contracts := fetch_sam_contracts env.acq keyword 3
    let header := "<h2>Search Results for: <em>" ++ keyword ++ "</em></h2>"
    match processLoop env company_profile contracts 1 header 0 0 with
    | .ok (html, g, o) =>
      .ok { html := html, fetchCalls := 1, googleCalls := g, openaiCalls := o }
    | .error e => .error e

/-- An acquisition world where every network strategy raises: Playwright is
unavailable and both HTTP requests fail. -/
def failEnv : AcqEnv :=
  { playwright_available := false, rendered_containers := none,
    api_response := none, rss_response := none }

/-- An acquisition world whose API strategy succeeds with one opportunity
whose `title` field is the empty string. -/
def emptyTitleEnv : AcqEnv :=
  { playwright_available := false, rendered_containers := none,
    api_response := some (200, some (.obj
      [("opportunitiesData", .arr [.obj [("title", .str "")]])])),
    rss_response := none }

/-- An API body whose single opportunity element is a number: slicing
`opportunitiesData` succeeds but `.get` on the element raises. -/
def malformedApiData : Json := .obj [("opportunitiesData", .arr [.num 5])]

/-- A 260-character title (the API parser copies titles untruncated). -/
def longApiTitle : String :=
  "AAAAAAAAAABBBBBBBBBBCCCCCCCCCCDDDDDDDDDDEEEEEEEEEEFFFFFFFFFFGGGGGGGGGGHHHHHHHHHHIIIIIIIIIIJJJJJJJJJJKKKKKKKKKKLLLLLLLLLLMMMMMMMMMMNNNNNNNNNNOOOOOOOOOOPPPPPPPPPPQQQQQQQQQQRRRRRRRRRRSSSSSSSSSSTTTTTTTTTTUUUUUUUUUUVVVVVVVVVVWWWWWWWWWWXXXXXXXXXXYYYYYYYYYYZZZZZZZZZZ"

/-- An API body carrying the 260-character title. -/
def longTitleApiData : Json :=
  .obj [("opportunitiesData", .arr [.obj [("title", .str longApiTitle)]])]

/-- A fixed opportunity record for exercising the proposal generators. -/
def demoContract : Contract :=
  { title := .str "Groundskeeping Services Contract",
    notice_id := .str "DEMO-2024-001",
    description := .str "Routine groundskeeping for federal facilities.",
    posted_date := .str "2024-10-15",
    response_deadline := .str "2024-12-01",
    department := .str "Department of General Services",
    type := .str "Solicitation",
    naics_code := .str "561730" }

/-- A generated text with a numbered outline after the first blank line. -/
def demoContent : String :=
  "1. Summary of requirements\n\n2. Proposal outline follows"

/-- A rendered-page candidate container that the extraction heuristics
accept. -/
def container0 : Container :=
  { textSpace := "Janitorial Services Contract Opportunity listing",
    heading := some "Janitorial Services Contract Opportunity",
    oppLink := none,
    textNl := "Janitorial Services Contract Opportunity\nThe description line needs to be longer than fifty characters total." }

/-- The record `container0` yields. -/
def contract0 : Contract :=
  { title := .str "Janitorial Services Contract Opportunity",
    notice_id := .str "N/A",
    description := .str "The description line needs to be longer than fifty characters total.",
    posted_date := .str "Recently posted",
    response_deadline := .str "See SAM.gov for details",
    department := .str "Federal Government",
    type := .str "Active Opportunity",
    naics_code := .str "See SAM.gov for NAICS codes" }

/-- One well-formed feed item. -/
def feedItem0 : RssItem :=
  { title := some "Some Feed Title", description := some "desc",
    pubDate := none, link := none }

/-- The record `feedItem0` yields. -/
def feedContract0 : Contract :=
  { title := .str "Some Feed Title",
    notice_id := .str "N/A",
    description := .str "desc",
    posted_date := .str "N/A",
    response_deadline := .str "See SAM.gov",
    department := .str "Federal Government",
    type := .str "Active Opportunity",
    naics_code := .str "See SAM.gov" }

/-- A presenter environment over the all-failing world with erroring
providers. -/
def procEnv0 : ProcEnv :=
  { acq := failEnv,
    googleProvider := fun _ _ => .error "provider down",
    openaiProvider := fun _ _ => .error "provider down" }

/-- The empty-keyword validation message. -/
def validationMessage : String :=
  "<p style=\x27color: red;\x27>Please enter a search keyword.</p>"

/-- Claim C10: the two Proposal Generator variants assemble
character-identical user prompts, company-context blocks and system
instructions, and behave identically on every successful provider text;
they differ only in which provider is invoked and in the provider name of
the error label. -/
theorem C10_thm (c : Contract) (p : Option CompanyProfile) :
    google_prompt c p = openai_prompt c p ∧
    google_company_context p = openai_company_context p ∧
    google_system_instruction = openai_system_content ∧
    (∀ content : String,
      generate_google_response c p (.ok content) =
        generate_openai_response c p (.ok content)) ∧
    (∀ e : String,
      (generate_google_response c p (.error e)).summary =
        "Error generating Google AI response: " ++ e ∧
      (generate_openai_response c p (.error e)).summary =
        "Error generating OpenAI response: " ++ e ∧
      (generate_google_response c p (.error e)).bid_proposal =
        (generate_openai_response c p (.error e)).bid_proposal) :=
  ⟨rfl, rfl, rfl, fun _ => rfl, fun _ => ⟨rfl, rfl, rfl⟩⟩

/-- Claim C3: a provider failure never escapes either generator: the result
is the fixed error-labelled summary (starting with "Error generating") and
the fixed "Unable to generate proposal." outline. -/
theorem C3_thm (c : Contract) (p : Option CompanyProfile) (e : String) :
    generate_google_response c p (.error e) =
      { summary := "Error generating Google AI response: " ++ e,
        bid_proposal := "Unable to generate proposal." } ∧
    pyStartsWith (generate_google_response c p (.error e)).summary
      "Error generating" = true ∧
    generate_openai_response c p (.error e) =
      { summary := "Error generating OpenAI response: " ++ e,
        bid_proposal := "Unable to generate proposal." } ∧
    pyStartsWith (generate_openai_response c p (.error e)).summary
      "Error generating" = true :=
  ⟨rfl, rfl, rfl, rfl⟩

/-- Claim C2: when the rendered scrape, the API strategy and the feed
strategy all fail or come back empty, the orchestrator returns exactly the
sample generator's output for the keyword capped at `limit`. -/
theorem C2_thm (env : AcqEnv) (keyword : String) (limit : Nat)
    (h1 : strategyPlaywright env keyword limit = [])
    (h2 : strategyApi env limit = [])
    (h3 : strategyRss env keyword limit = []) :
    fetch_sam_contracts env keyword limit =
      generate_sample_contracts keyword limit := by
  unfold fetch_sam_contracts
  rw [h1, h2, h3]

/-- Witness for C2 at a concrete all-failing environment. -/
theorem C2_wit :
    fetch_sam_contracts failEnv "cybersecurity" 2 =
      generate_sample_contracts "cybersecurity" 2 :=
  C2_thm failEnv "cybersecurity" 2 rfl rfl rfl

/-- Claim C5 (amended): with every network strategy failing,
`acquire("gardening", 3)` returns exactly the three sample records: the
notice ids are DEMO-2024-001..003 in order and every title contains
"Gardening", but only the first and third titles start with it. -/
theorem C5_thm :
    fetch_sam_contracts failEnv "gardening" 3 =
      generate_sample_contracts "gardening" 3 ∧
    (fetch_sam_contracts failEnv "gardening" 3).length = 3 ∧
    (fetch_sam_contracts failEnv "gardening" 3).map (fun c => pyStr c.notice_id) =
      ["DEMO-2024-001", "DEMO-2024-002", "DEMO-2024-003"] ∧
    (fetch_sam_contracts failEnv "gardening" 3).map
      (fun c => jContains c.title "Gardening") = [true, true, true] :=
  ⟨rfl, rfl, rfl, rfl⟩

/-- Counterexample to C5 as stated: the second returned record's title is
"Multi-Site Gardening and Landscape Management", which does not start with
"Gardening". -/
theorem C5_cex :
    (fetch_sam_contracts failEnv "gardening" 3).map
      (fun c => jStartsWith c.title "Gardening") = [true, false, true] ∧
    (fetch_sam_contracts failEnv "gardening" 3).map (fun c => pyStr c.title) =
      ["Gardening Services and Maintenance Contract",
       "Multi-Site Gardening and Landscape Management",
       "Gardening Equipment and Materials Supply Contract"] :=
  ⟨rfl, rfl⟩

/-- Claim C9: an empty or whitespace-only keyword makes the presenter
return the validation message with zero acquisition calls and zero
generator calls. -/
theorem C9_thm (env : ProcEnv) (keyword company_name experience capabilities
    certifications past_performance competitive_advantages : String)
    (h : keyword = "" ∨ pyStrip keyword = "") :
    process_contracts env keyword company_name experience capabilities
      certifications past_performance competitive_advantages =
      .ok { html := validationMessage, fetchCalls := 0, googleCalls := 0,
            openaiCalls := 0 } := by
  rcases h with h | h <;>
    simp [process_contracts, h, validationMessage]

/-- Witness for C9 at a whitespace-only keyword. -/
theorem C9_wit :
    process_contracts procEnv0 "   " "" "" "" "" "" "" =
      .ok { html := validationMessage, fetchCalls := 0, googleCalls := 0,
            openaiCalls := 0 } :=
  C9_thm procEnv0 "   " "" "" "" "" "" "" (Or.inr rfl)

/-- Claim C7 (amended): the feed parser yields the empty sequence on
malformed input (the lenient soup produces no items, and the blanket
`except` never lets an exception out), and the API parser yields the empty
sequence when `opportunitiesData` is absent — but, unlike the claim, the
API parser raises on malformed structure under that key (see the
counterexample). -/
theorem C7_thm (keyword : String) (limit : Nat) (kvs : List (String × Json))
    (h : jlookup kvs "opportunitiesData" = none) :
    parse_rss_feed [] keyword limit = [] ∧
    parse_sam_api_response (.obj kvs) limit = .ok [] := by
  constructor
  · simp [parse_rss_feed]
  · simp [parse_sam_api_response, jgetD, h, parseApiOpps]

/-- Witness for C7 at an object without the key. -/
theorem C7_wit :
    parse_rss_feed [] "roofing" 5 = [] ∧
    parse_sam_api_response (.obj [("other", .null)]) 5 = .ok [] :=
  C7_thm "roofing" 5 [("other", .null)] rfl

/-- Counterexample to C7 as stated: on a malformed structure —
`opportunitiesData` holding a list whose element is a number — the API
parser raises (`AttributeError` on `.get`) instead of returning empty. -/
theorem C7_cex :
    parse_sam_api_response malformedApiData 1 = .error () := rfl

/-- A successful prefix test lets the separator be peeled back off. -/
theorem leadsWith_append_drop :
    ∀ (sep l : List Char), leadsWith sep l = true →
      sep ++ l.drop sep.length = l
  | [], l, _ => by simp
  | a :: s, [], h => by simp [leadsWith] at h
  | a :: s, b :: l, h => by
    simp only [leadsWith, Bool.and_eq_true, beq_iff_eq] at h
    obtain ⟨rfl, h2⟩ := h
    simpa using leadsWith_append_drop s l h2

/-- Splitting at the first separator occurrence reassembles to the input. -/
theorem splitOnceAux_append :
    ∀ (sep l a b : List Char), splitOnceAux sep l = some (a, b) →
      a ++ sep ++ b = l := by
  intro sep l
  induction l with
  | nil =>
    intro a b h
    simp only [splitOnceAux] at h
    split at h
    · rename_i hl
      cases h
      cases sep with
      | nil => rfl
      | cons c t => simp [leadsWith] at hl
    · cases h
  | cons c t ih =>
    intro a b h
    simp only [splitOnceAux] at h
    split at h
    · rename_i hl
      cases h
      simpa using leadsWith_append_drop sep (c :: t) hl
    · cases hrec : splitOnceAux sep t with
      | none => rw [hrec] at h; cases h
      | some p =>
        rw [hrec] at h
        cases h
        have := ih p.1 p.2 (by rw [hrec])
        simpa using this

/-- Reassembly for the string-level single split. -/
theorem pySplitOnce_append (s sep a b : String)
    (h : pySplitOnce s sep = some (a, b)) : a ++ sep ++ b = s := by
  unfold pySplitOnce at h
  cases haux : splitOnceAux sep.data s.data with
  | none => rw [haux] at h; cases h
  | some p =>
    rw [haux] at h
    cases h
    have h2 := splitOnceAux_append sep.data s.data p.1 p.2 haux
    show String.mk (p.1 ++ sep.data ++ p.2) = s
    rw [h2]

/-- A midpoint split reassembles to the input. -/
theorem pyTake_append_pyDrop (s : String) (n : Nat) :
    pyTake s n ++ pyDrop s n = s := by
  show String.mk (s.data.take n ++ s.data.drop n) = s
  rw [List.take_append_drop]

/-- Claim C4 (amended): with a marker ("proposal outline" or "2.") present
and a blank-line boundary in the text, both generators split at the first
blank line and the two pieces (with the consumed separator) reassemble to
the source in order; in every other case — no marker, or marker without a
blank-line boundary — both fall back to the character-count midpoint split,
which also reassembles in order.  The pieces are not always non-empty. -/
theorem C4_thm (c : Contract) (p : Option CompanyProfile) (content : String) :
    (∀ a b : String,
      (pyIn "proposal outline" (pyLower content) || pyIn "2." content) = true →
      pySplitOnce content "\n\n" = some (a, b) →
      generate_google_response c p (.ok content) =
        { summary := a, bid_proposal := b } ∧
      generate_openai_response c p (.ok content) =
        { summary := a, bid_proposal := b } ∧
      a ++ "\n\n" ++ b = content) ∧
    ((pyIn "proposal outline" (pyLower content) || pyIn "2." content) = false ∨
      pySplitOnce content "\n\n" = none →
      generate_google_response c p (.ok content) =
        { summary := pyTake content (pyLen content / 2),
          bid_proposal := pyDrop content (pyLen content / 2) } ∧
      generate_openai_response c p (.ok content) =
        { summary := pyTake content (pyLen content / 2),
          bid_proposal := pyDrop content (pyLen content / 2) } ∧
      pyTake content (pyLen content / 2) ++ pyDrop content (pyLen content / 2) =
        content) := by
  constructor
  · intro a b hm hs
    refine ⟨?_, ?_, pySplitOnce_append content "\n\n" a b hs⟩ <;>
      simp [generate_google_response, generate_openai_response, hm, hs]
  · intro h
    refine ⟨?_, ?_, pyTake_append_pyDrop content (pyLen content / 2)⟩ <;>
      rcases h with h | h <;>
      simp [generate_google_response, generate_openai_response, h]

/-- Witness for C4 at a marker-bearing text with a blank-line boundary. -/
theorem C4_wit :
    generate_google_response demoContract none (.ok demoContent) =
      { summary := "1. Summary of requirements",
        bid_proposal := "2. Proposal outline follows" } ∧
    generate_openai_response demoContract none (.ok demoContent) =
      { summary := "1. Summary of requirements",
        bid_proposal := "2. Proposal outline follows" } ∧
    "1. Summary of requirements" ++ "\n\n" ++ "2. Proposal outline follows" =
      demoContent :=
  (C4_thm demoContract none demoContent).1
    "1. Summary of requirements" "2. Proposal outline follows" rfl rfl

/-- Counterexample to C4 as stated: a provider text that begins with a
blank line splits into an empty summary — the two pieces are not always
non-empty. -/
theorem C4_cex :
    (generate_google_response demoContract none (.ok "\n\n2. x")).summary = "" ∧
    (generate_openai_response demoContract none (.ok "\n\n2. x")).summary = "" :=
  ⟨rfl, rfl⟩

/-- The scraper returns at most `limit` records. -/
theorem length_fetch_playwright (keyword : String) (limit : Nat)
    (containers : List Container) :
    (fetch_sam_contracts_playwright keyword limit containers).length ≤ limit := by
  unfold fetch_sam_contracts_playwright
  cases extractLoop keyword limit (containers.take (limit * 3)) [] with
  | nil => simp
  | cons c cs => simp [List.length_take]

/-- Successful record-list parsing preserves the element count. -/
theorem parseApiOpps_length :
    ∀ (l : List Json) (cs : List Contract), parseApiOpps l = .ok cs →
      cs.length = l.length := by
  intro l
  induction l with
  | nil =>
    intro cs h
    simp only [parseApiOpps] at h
    cases h
    rfl
  | cons o os ih =>
    intro cs h
    simp only [parseApiOpps, bind, Except.bind] at h
    cases hc : parseApiOpp o with
    | error e => rw [hc] at h; cases h
    | ok c =>
      rw [hc] at h
      cases hr : parseApiOpps os with
      | error e => rw [hr] at h; cases h
      | ok rest =>
        rw [hr] at h
        cases h
        simp [ih rest hr]

/-- A successful API parse returns at most `limit` records. -/
theorem parse_api_length (data : Json) (limit : Nat) (cs : List Contract)
    (h : parse_sam_api_response data limit = .ok cs) : cs.length ≤ limit := by
  unfold parse_sam_api_response at h
  split at h
  · split at h
    · rename_i l heq
      have := parseApiOpps_length _ _ h
      rw [this]
      simp [List.length_take]
    · split at h
      · cases h; simp
      · cases h
    · cases h
  · cases h

/-- Strategy 1 returns at most `limit` records. -/
theorem strategyPlaywright_length (env : AcqEnv) (keyword : String) (limit : Nat) :
    (strategyPlaywright env keyword limit).length ≤ limit := by
  unfold strategyPlaywright
  split
  · cases env.rendered_containers with
    | none => simp
    | some containers => exact length_fetch_playwright keyword limit containers
  · simp

/-- Strategy 2 returns at most `limit` records. -/
theorem strategyApi_length (env : AcqEnv) (limit : Nat) :
    (strategyApi env limit).length ≤ limit := by
  unfold strategyApi
  cases env.api_response with
  | none => simp
  | some sb =>
    obtain ⟨status, body⟩ := sb
    dsimp only
    split
    · cases body with
      | none => simp
      | some data =>
        dsimp only
        split
        · rename_i htrue
          cases hp : parse_sam_api_response data limit with
          | ok cts => exact parse_api_length data limit cts hp
          | error e => simp
        · simp
    · simp

/-- Strategy 3 returns at most `limit` records. -/
theorem strategyRss_length (env : AcqEnv) (keyword : String) (limit : Nat) :
    (strategyRss env keyword limit).length ≤ limit := by
  unfold strategyRss
  cases env.rss_response with
  | none => simp
  | some si =>
    obtain ⟨status, items⟩ := si
    dsimp only
    split
    · simp [parse_rss_feed, List.length_take]
    · simp

/-- The sample generator returns at most `limit` records. -/
theorem generate_sample_contracts_length (keyword : String) (limit : Nat) :
    (generate_sample_contracts keyword limit).length ≤ limit := by
  simp [generate_sample_contracts, List.length_take]

/-- Claim C1 (amended): the orchestrator always returns normally with
between 0 and `limit` records, each carrying all eight fields; fields are
not guaranteed to be non-empty strings (see the counterexample). -/
theorem C1_thm (env : AcqEnv) (keyword : String) (limit : Nat) :
    (fetch_sam_contracts env keyword limit).length ≤ limit := by
  unfold fetch_sam_contracts
  cases h1 : strategyPlaywright env keyword limit with
  | cons c cs => dsimp only; rw [← h1]; exact strategyPlaywright_length env keyword limit
  | nil =>
    dsimp only
    cases h2 : strategyApi env limit with
    | cons c cs => dsimp only; rw [← h2]; exact strategyApi_length env limit
    | nil =>
      dsimp only
      cases h3 : strategyRss env keyword limit with
      | cons c cs => dsimp only; rw [← h3]; exact strategyRss_length env keyword limit
      | nil => exact generate_sample_contracts_length keyword limit

/-- Counterexample to C1 as stated: an API body whose opportunity has an
empty-string title flows through `acquire` unchanged — the returned record
has all eight fields present but its title is the empty string. -/
theorem C1_cex :
    (fetch_sam_contracts emptyTitleEnv "landscaping" 3).map allFieldsNonEmptyStr =
      [false] ∧
    (fetch_sam_contracts emptyTitleEnv "landscaping" 3).map (fun c => pyStr c.title) =
      [""] :=
  ⟨rfl, rfl⟩

/-- Lowercasing preserves the character count. -/
theorem pyLen_pyLower (s : String) : pyLen (pyLower s) = pyLen s := by
  simp [pyLen, pyLower]

/-- Slicing caps the character count. -/
theorem pyLen_pyTake (s : String) (n : Nat) : pyLen (pyTake s n) = min n (pyLen s) := by
  simp [pyLen, pyTake]

/-- Every generic label is shorter than 15 characters, so no string of
length at least 15 lowercases to one. -/
theorem generic_any_false (t : String) (h : 15 ≤ pyLen t) :
    genericTitles.any (fun g => g == pyLower t) = false := by
  have hne : ∀ g : String, pyLen g < 15 → (g == pyLower t) = false := by
    intro g hg
    rw [beq_eq_false_iff_ne]
    intro heq
    rw [heq, pyLen_pyLower] at hg
    omega
  simp [genericTitles, hne "all domains" (by decide), hne "help guide" (by decide),
    hne "search" (by decide), hne "filter" (by decide)]

/-- Every record the per-container extraction emits has a title of at least
15 characters truncated to 250, and a description truncated to 2000. -/
theorem processContainer_some (k : String) (cont : Container) (ct : Contract)
    (h : processContainer k cont = some ct) :
    ∃ t0 d0 : String, ct.title = .str (pyTake t0 250) ∧ 15 ≤ pyLen t0 ∧
      ct.description = .str (pyTake d0 2000) := by
  unfold processContainer at h
  dsimp only at h
  split at h
  · cases h
  · split at h
    · cases h
    · split at h
      · cases h
      · rename_i hlen hgen
        cases h
        refine ⟨deriveTitle cont, _, rfl, ?_, rfl⟩
        omega

/-- Members of the scraper's accumulation loop come from the accumulator or
from a successful container extraction. -/
theorem extractLoop_mem (k : String) (lim : Nat) :
    ∀ (conts : List Container) (acc : List Contract) (c : Contract),
      c ∈ extractLoop k lim conts acc →
      c ∈ acc ∨ ∃ cont, processContainer k cont = some c := by
  intro conts
  induction conts with
  | nil => intro acc c h; exact Or.inl h
  | cons hd tl ih =>
    intro acc c h
    simp only [extractLoop] at h
    cases hp : processContainer k hd with
    | none => rw [hp] at h; exact ih acc c h
    | some ct =>
      rw [hp] at h
      dsimp only at h
      split at h
      · rcases List.mem_append.mp h with h2 | h2
        · exact Or.inl h2
        · refine Or.inr ⟨hd, ?_⟩
          rw [List.mem_singleton.mp h2]
          exact hp
      · rcases ih (acc ++ [ct]) c h with h2 | ⟨cont, hc⟩
        · rcases List.mem_append.mp h2 with h3 | h3
          · exact Or.inl h3
          · refine Or.inr ⟨hd, ?_⟩
            rw [List.mem_singleton.mp h3]
            exact hp
        · exact Or.inr ⟨cont, hc⟩

/-- Every record the scraper returns satisfies the post-extraction title
facts. -/
theorem playwright_mem_title (keyword : String) (limit : Nat)
    (containers : List Container) (c : Contract)
    (hmem : c ∈ fetch_sam_contracts_playwright keyword limit containers) :
    ∃ t0 d0 : String, c.title = .str (pyTake t0 250) ∧ 15 ≤ pyLen t0 ∧
      c.description = .str (pyTake d0 2000) := by
  unfold fetch_sam_contracts_playwright at hmem
  cases hloop : extractLoop keyword limit (containers.take (limit * 3)) [] with
  | nil => rw [hloop] at hmem; cases hmem
  | cons c0 cs0 =>
    rw [hloop] at hmem
    dsimp only at hmem
    have hmem2 : c ∈ c0 :: cs0 := List.take_subset _ _ hmem
    rw [← hloop] at hmem2
    rcases extractLoop_mem keyword limit _ [] c hmem2 with h | ⟨cont, hp⟩
    · cases h
    · exact processContainer_some keyword cont c hp

/-- Claim C8: the rendered-page scraper never outputs a record whose title
is under 15 characters or equals one of the generic labels. -/
theorem C8_thm (keyword : String) (limit : Nat) (containers : List Container)
    (c : Contract)
    (hmem : c ∈ fetch_sam_contracts_playwright keyword limit containers) :
    ∃ t : String, c.title = Json.str t ∧ 15 ≤ pyLen t ∧
      genericTitles.any (fun g => g == pyLower t) = false := by
  obtain ⟨t0, d0, hti, hlen, _⟩ :=
    playwright_mem_title keyword limit containers c hmem
  refine ⟨pyTake t0 250, hti, ?_, ?_⟩
  · rw [pyLen_pyTake]; omega
  · apply generic_any_false
    rw [pyLen_pyTake]; omega

/-- Witness for C8 at a concrete rendered container. -/
theorem C8_wit :
    ∃ c ∈ fetch_sam_contracts_playwright "janitorial" 1 [container0],
      ∃ t : String, c.title = Json.str t ∧ 15 ≤ pyLen t ∧
        genericTitles.any (fun g => g == pyLower t) = false := by
  have hm : contract0 ∈ fetch_sam_contracts_playwright "janitorial" 1 [container0] := by
    show contract0 ∈ [contract0]
    exact List.mem_singleton.mpr rfl
  exact ⟨contract0, hm, C8_thm "janitorial" 1 [container0] contract0 hm⟩

/-- Every feed-parsed record has its title capped at 200 and its
description capped at 1500 characters. -/
theorem parse_rss_feed_bounds (items : List RssItem) (keyword : String)
    (limit : Nat) (c : Contract) (hmem : c ∈ parse_rss_feed items keyword limit) :
    jStrLen c.title ≤ 200 ∧ jStrLen c.description ≤ 1500 := by
  unfold parse_rss_feed at hmem
  rcases List.mem_map.mp hmem with ⟨item, _, rfl⟩
  dsimp only
  constructor
  · show pyLen (pyTake _ 200) ≤ 200
    rw [pyLen_pyTake]
    omega
  · show pyLen (pyTake _ 1500) ≤ 1500
    rw [pyLen_pyTake]
    omega

/-- A successfully parsed API record has its description sliced to at most
1500 (when the description value is a string). -/
theorem parseApiOpp_desc (o : Json) (c : Contract)
    (h : parseApiOpp o = .ok c) : jStrLen c.description ≤ 1500 := by
  cases o with
  | obj kvs =>
    simp only [parseApiOpp, bind, Except.bind] at h
    cases hs : pySliceJson 1500 (jgetD kvs "description" (.str "No description")) with
    | error e => rw [hs] at h; cases h
    | ok v =>
      rw [hs] at h
      cases h
      cases hval : jgetD kvs "description" (.str "No description") with
      | str s =>
        rw [hval] at hs
        simp only [pySliceJson] at hs
        cases hs
        show pyLen (pyTake s 1500) ≤ 1500
        rw [pyLen_pyTake]
        omega
      | arr l =>
        rw [hval] at hs
        simp only [pySliceJson] at hs
        cases hs
        simp [jStrLen]
      | num n => rw [hval] at hs; cases hs
      | bool b => rw [hval] at hs; cases hs
      | null => rw [hval] at hs; cases hs
      | obj kvs2 => rw [hval] at hs; cases hs
  | str s => cases h
  | num n => cases h
  | bool b => cases h
  | null => cases h
  | arr l => cases h

/-- Members of a successful record-list parse come from successful
single-record parses. -/
theorem parseApiOpps_mem :
    ∀ (l : List Json) (cs : List Contract), parseApiOpps l = .ok cs →
      ∀ c ∈ cs, ∃ o, parseApiOpp o = .ok c := by
  intro l
  induction l with
  | nil =>
    intro cs h c hc
    simp only [parseApiOpps] at h
    cases h
    cases hc
  | cons o os ih =>
    intro cs h c hc
    simp only [parseApiOpps, bind, Except.bind] at h
    cases hc0 : parseApiOpp o with
    | error e => rw [hc0] at h; cases h
    | ok c0 =>
      rw [hc0] at h
      cases hr : parseApiOpps os with
      | error e => rw [hr] at h; cases h
      | ok rest =>
        rw [hr] at h
        cases h
        rcases List.mem_cons.mp hc with rfl | hmem
        · exact ⟨o, hc0⟩
        · exact ih rest hr c hmem

/-- Claim C6 (amended): the rendered-page scraper truncates titles to 250
and descriptions to 2000 characters; the feed parser truncates titles to
200 and descriptions to 1500; the API parser truncates descriptions to
1500 — but it does not truncate titles (see the counterexample), and the
sample generator truncates nothing. -/
theorem C6_thm :
    (∀ (keyword : String) (limit : Nat) (containers : List Container)
        (c : Contract), c ∈ fetch_sam_contracts_playwright keyword limit containers →
      jStrLen c.title ≤ 250 ∧ jStrLen c.description ≤ 2000) ∧
    (∀ (items : List RssItem) (keyword : String) (limit : Nat) (c : Contract),
        c ∈ parse_rss_feed items keyword limit →
      jStrLen c.title ≤ 200 ∧ jStrLen c.description ≤ 1500) ∧
    (∀ (data : Json) (limit : Nat) (cs : List Contract) (c : Contract),
        parse_sam_api_response data limit = .ok cs → c ∈ cs →
      jStrLen c.description ≤ 1500) := by
  refine ⟨?_, parse_rss_feed_bounds, ?_⟩
  · intro keyword limit containers c hmem
    obtain ⟨t0, d0, hti, _, hdesc⟩ :=
      playwright_mem_title keyword limit containers c hmem
    rw [hti, hdesc]
    constructor
    · show pyLen (pyTake t0 250) ≤ 250
      rw [pyLen_pyTake]; omega
    · show pyLen (pyTake d0 2000) ≤ 2000
      rw [pyLen_pyTake]; omega
  · intro data limit cs c h hc
    unfold parse_sam_api_response at h
    split at h
    · split at h
      · rcases parseApiOpps_mem _ _ h c hc with ⟨o, ho⟩
        exact parseApiOpp_desc o c ho
      · split at h
        · cases h; cases hc
        · cases h
      · cases h
    · cases h

/-- Witness for C6 at a concrete feed item. -/
theorem C6_wit :
    ∃ c ∈ parse_rss_feed [feedItem0] "kw" 1,
      jStrLen c.title ≤ 200 ∧ jStrLen c.description ≤ 1500 := by
  have hm : feedContract0 ∈ parse_rss_feed [feedItem0] "kw" 1 := by
    show feedContract0 ∈ [feedContract0]
    exact List.mem_singleton.mpr rfl
  exact ⟨feedContract0, hm, C6_thm.2.1 [feedItem0] "kw" 1 feedContract0 hm⟩

set_option maxRecDepth 4096 in
/-- Counterexample to C6 as stated: the API parser copies a 260-character
title into the record untruncated, exceeding the 250-character bound. -/
theorem C6_cex :
    (match parse_sam_api_response longTitleApiData 1 with
      | .ok cs => cs.map (fun c => jStrLen c.title)
      | .error _ => []) = [260] ∧ 250 < 260 :=
  ⟨rfl, by omega⟩
